import Mathlib

/-!
Verification of the unified space-data dashboard client against its
specification.  The repository under scrutiny consists of thin React tab
components (ExoplanetsTab, MarsTab, IssTab) that call backend endpoints
directly.  We shallowly embed the data handling of those components:
JSON values, the per-tab record extraction, the error handling of each
fetch, the URL construction, the render-state logic, the 5-second
polling effect, and the photo gallery slice.  Components that the
specification describes but that are absent from the sources (the result
cache with its single-flight policy, and the query normalizer) are
modelled from the specification and marked as such.
-/

/-- A JavaScript/JSON value, as manipulated by the tab components.
Numbers are modelled as integers (the fields the claims touch are
integral). -/
inductive Js where
  | null
  | bool (b : Bool)
  | num (n : Int)
  | str (s : String)
  | arr (elems : List Js)
  | obj (fields : List (String × Js))

/-- Field lookup in a JS object field list; a missing key behaves like
the JS `undefined`, which we model as `Js.null`. -/
def findField : List (String × Js) → String → Js
  | [], _ => Js.null
  | (k2, v) :: rest, k => if k = k2 then v else findField rest k

/-- Property access `o[k]`: on an object, look the key up; on anything
else the access yields `undefined` (modelled `Js.null`). -/
def jsGet (j : Js) (k : String) : Js :=
  match j with
  | .obj fields => findField fields k
  | _ => Js.null

/-- JavaScript truthiness: `null`/`undefined`, `false`, `0` and `""` are
falsy; every array and object (even empty) is truthy. -/
def jsTruthy : Js → Bool
  | .null => false
  | .bool b => b
  | .num n => decide (n ≠ 0)
  | .str s => decide (s ≠ "")
  | .arr _ => true
  | .obj _ => true

/-- The JavaScript `a || b` operator: `a` when truthy, otherwise `b`. -/
def jsOr (a b : Js) : Js :=
  if jsTruthy a then a else b

/-- ExoplanetsTab reads its records as `response.data.data`
(ExoplanetsTab.js line 20); the argument is the response body. -/
def exoplanetsRecords (body : Js) : Js :=
  jsGet body "data"

/-- MarsTab reads its records as `response.data.photos || []`
(MarsTab.js line 16). -/
def marsRecords (body : Js) : Js :=
  jsOr (jsGet body "photos") (Js.arr [])

/-- IssTab stores the whole response body as its record
(`setPosition(response.data)`, IssTab line 14). -/
def issRecords (body : Js) : Js :=
  body

/-- A sample response body shaped exactly like the envelope the
specification prescribes: providers map, records list, partial flag. -/
def specEnvelope : Js :=
  Js.obj [("providers", Js.obj [("mars", Js.str "success")]),
          ("records", Js.arr [Js.num 7]),
          ("partial", Js.bool false)]

/-- Outcome of an axios call as seen by a tab component: a body on
success, or a rejection carrying the HTTP status. -/
inductive FetchOutcome where
  | success (body : Js)
  | failure (httpStatus : Nat)

/-- MarsTab's catch handler sets one fixed message for every failure
(MarsTab.js line 18). -/
def marsErrorMessage : FetchOutcome → Option String
  | .success _ => none
  | .failure _ => some "Failed to fetch Mars photos"

/-- ExoplanetsTab's catch handler (ExoplanetsTab.js line 22). -/
def exoplanetsErrorMessage : FetchOutcome → Option String
  | .success _ => none
  | .failure _ => some "Failed to fetch exoplanets data"

/-- IssTab's catch handler (IssTab line 16). -/
def issErrorMessage : FetchOutcome → Option String
  | .success _ => none
  | .failure _ => some "Failed to fetch ISS position"

/-- URL built by fetchExoplanets: the year parameter is appended exactly
when the raw string is truthy (non-empty); no validation is performed
(ExoplanetsTab.js lines 15-18). -/
def exoplanetsRequestUrl (year : String) : String :=
  if year ≠ "" then "/api/exoplanets/search?" ++ "discovery_year=" ++ year
  else "/api/exoplanets/search?"

/-- fetchExoplanets always dispatches the request it built; `none` would
mean no request goes out, which never happens in the source. -/
def fetchExoplanetsRequest (year : String) : Option String :=
  some (exoplanetsRequestUrl year)

/-- URL built by fetchMarsPhotos: rover and sol are interpolated
verbatim (MarsTab.js line 15). -/
def marsRequestUrl (rover sol : String) : String :=
  "/api/mars/rover/" ++ rover ++ "/photos?sol=" ++ sol

/-- fetchMarsPhotos always dispatches the request it built. -/
def fetchMarsRequest (rover sol : String) : Option String :=
  some (marsRequestUrl rover sol)

/-- The exoplanet timeline bucket for one record:
`planet.disc_year || 'Unknown'` (ExoplanetsTab.js line 34). -/
def discYearBucket (planet : Js) : Js :=
  jsOr (jsGet planet "disc_year") (Js.str "Unknown")

/-- Length of a JS array value (only arrays reach `.length` in the
modelled code paths). -/
def jsLen : Js → Nat
  | .arr xs => xs.length
  | _ => 0

/-- Truthiness of the `error` state variable (either null or a fixed
non-empty string in the source). -/
def errTruthy : Option String → Bool
  | none => false
  | some e => decide (e ≠ "")

/-- The MarsTab component state relevant to rendering. -/
structure MarsState where
  photos : Js
  loading : Bool
  error : Option String

/-- Which of MarsTab's four conditional render branches are shown
(MarsTab.js lines 58-75). -/
structure MarsView where
  showLoading : Bool
  showError : Bool
  showGallery : Bool
  showNoPhotos : Bool
deriving DecidableEq

/-- MarsTab's render conditions: loading message, error message, photo
grid when `photos.length > 0`, and the no-photos message when
`photos.length === 0` (all gated on `!loading && !error`). -/
def marsView (s : MarsState) : MarsView :=
  { showLoading := s.loading
    showError := errTruthy s.error
    showGallery := !s.loading && !errTruthy s.error && decide (0 < jsLen s.photos)
    showNoPhotos := !s.loading && !errTruthy s.error && decide (jsLen s.photos = 0) }

/-- State after fetchMarsPhotos resolves successfully: photos replaced,
error cleared (set to null before the await), loading cleared in the
finally block (MarsTab.js lines 11-21). -/
def marsFetchSuccess (body : Js) : MarsState :=
  { photos := marsRecords body, loading := false, error := none }

/-- The ISS position record as consumed by IssTab. -/
structure IssPosition where
  latitude : Int
  longitude : Int
  altitude : Int
  velocity : Int
  timestamp : Int

/-- The millisecond value IssTab passes to the Date constructor:
`new Date(position.timestamp * 1000)` (IssTab line 39). -/
def issDisplayedDateMillis (p : IssPosition) : Int :=
  p.timestamp * 1000

/-- Fetch times produced by a React effect that calls fetch once on
mount and installs `setInterval(fetch, period)`, cleaned up on unmount:
one call at time 0, then one at every positive multiple of `period`
strictly before the unmount time. -/
def effectFetchTimes (period endTime : Nat) : List Nat :=
  0 :: ((List.range (endTime / period)).map (fun k => (k + 1) * period)).filter
    (fun t => decide (t < endTime))

/-- IssTab's effect: immediate fetch plus a 5000 ms interval, cancelled
on unmount (IssTab lines 22-26). -/
def issFetchTimes (endTime : Nat) : List Nat :=
  effectFetchTimes 5000 endTime

/-- JavaScript `Array.prototype.slice(start, stop)` semantics for
integer arguments: negative indices count from the end, and both
indices are clamped to the array bounds. -/
def jsSlice (start stop : Int) (l : List α) : List α :=
  let len : Int := l.length
  let s := if start < 0 then max (len + start) 0 else min start len
  let e := if stop < 0 then max (len + stop) 0 else min stop len
  (l.take e.toNat).drop s.toNat

/-- One Mars photo as consumed by the gallery. -/
structure MarsPhoto where
  id : Nat
  img_src : String
  sol : Int
  cameraFullName : String
deriving DecidableEq

/-- The data shown in one gallery cell: image source, sol, camera name
(MarsTab.js lines 63-70). -/
def marsPhotoCell (p : MarsPhoto) : String × Int × String :=
  (p.img_src, p.sol, p.cameraFullName)

/-- The gallery renders `photos.slice(0, 10).map(...)`
(MarsTab.js line 62). -/
def marsGallery (photos : List MarsPhoto) : List (String × Int × String) :=
  (jsSlice 0 10 photos).map marsPhotoCell

/-- Cache key for the result cache: (provider id, canonicalized query). -/
abbrev SFKey := String × String

/-- Modelled from the spec: state of the Result Cache with single-flight
policy (spec section 4.4), which is absent from the sources.  `inflight`
maps each key with an outstanding upstream fetch to the request ids
waiting on it; `cached` records the store time of completed fetches. -/
structure SFState where
  inflight : List (SFKey × List Nat)
  cached : List (SFKey × Nat)

/-- Modelled from the spec: a cached entry for `k` is fresh at `now`
when `now` is within `ttl` of its store time. -/
def cacheFresh (ttl now : Nat) (k : SFKey) (cached : List (SFKey × Nat)) : Bool :=
  cached.any (fun e => e.1 == k && decide (now < e.2 + ttl))

/-- Modelled from the spec: register one more waiter on the in-flight
fetch for `k`. -/
def addWaiter (k : SFKey) (rid : Nat) : List (SFKey × List Nat) → List (SFKey × List Nat)
  | [] => []
  | (k2, ws) :: rest =>
    if k == k2 then (k2, rid :: ws) :: rest else (k2, ws) :: addWaiter k rid rest

/-- Modelled from the spec: whether a fetch for `k` is already in
flight. -/
def hasInflight (k : SFKey) (l : List (SFKey × List Nat)) : Bool :=
  l.any (fun e => e.1 == k)

/-- Modelled from the spec: a request arriving at time `now`.  A fresh
cache entry is served directly; a key already in flight gains a waiter;
otherwise a new upstream fetch starts.  The returned Bool says whether
an upstream fetch was issued (spec sections 4.4 and 4.5). -/
def sfRequest (ttl now rid : Nat) (k : SFKey) (s : SFState) : SFState × Bool :=
  if cacheFresh ttl now k s.cached then (s, false)
  else if hasInflight k s.inflight then
    ({ s with inflight := addWaiter k rid s.inflight }, false)
  else
    ({ s with inflight := (k, [rid]) :: s.inflight }, true)

/-- Modelled from the spec: remove the in-flight entry for `k`,
returning its waiters. -/
def takeWaiters (k : SFKey) : List (SFKey × List Nat) → List Nat × List (SFKey × List Nat)
  | [] => ([], [])
  | (k2, ws) :: rest =>
    if k == k2 then (ws, rest)
    else
      let r := takeWaiters k rest
      (r.1, (k2, ws) :: r.2)

/-- Modelled from the spec: completion of the upstream fetch for `k`
with payload `v` at time `now`: the result is cached and delivered to
every waiter (request id paired with the shared payload). -/
def sfComplete (k : SFKey) (v now : Nat) (s : SFState) : SFState × List (Nat × Nat) :=
  let r := takeWaiters k s.inflight
  ({ inflight := r.2, cached := (k, now) :: s.cached }, r.1.map (fun rid => (rid, v)))

/-- Modelled from the spec: two concurrent requests (ids 1 and 2) for
the same key, both arriving before the fetch completes, followed by the
completion.  Returns the number of upstream fetches issued and the list
of deliveries. -/
def singleFlightRun (ttl t1 t2 t3 : Nat) (k : SFKey) (v : Nat) :
    Nat × List (Nat × Nat) :=
  let r1 := sfRequest ttl t1 1 k ⟨[], []⟩
  let r2 := sfRequest ttl t2 2 k r1.1
  let rc := sfComplete k v t3 r2.1
  ((if r1.2 then 1 else 0) + (if r2.2 then 1 else 0), rc.2)

/-- A raw query parameter value: integer or string. -/
inductive RawVal where
  | int (n : Int)
  | str (s : String)
deriving DecidableEq

/-- Modelled from the spec: the error of the Query Normalizer (spec
section 4.1), absent from the sources. -/
inductive InvalidQuery where
  | unknownField (field : String)
  | badValue (field : String) (reason : String)
deriving DecidableEq

/-- Modelled from the spec: a normalized query over the fixed
provider-independent vocabulary (discovery_year, sol, rover). -/
structure NormalizedQuery where
  discovery_year : Option Int := none
  sol : Option Int := none
  rover : Option String := none
deriving DecidableEq

/-- Modelled from the spec: a discovery year must be a 4-digit integer
in [1989, currentYear + 1]. -/
def validYear (currentYear y : Int) : Bool :=
  decide (1989 ≤ y) && decide (y ≤ currentYear + 1) && decide (y ≤ 9999)

/-- Modelled from the spec: validate one supplied field against the
fixed vocabulary and its expected type and range; unrecognized fields
fail with the field name, out-of-range values with a reason. -/
def normalizeField (currentYear : Int) (q : NormalizedQuery) :
    String × RawVal → Except InvalidQuery NormalizedQuery
  | ("discovery_year", .int y) =>
    if validYear currentYear y then .ok { q with discovery_year := some y }
    else .error (.badValue "discovery_year" "out of range")
  | ("discovery_year", .str _) => .error (.badValue "discovery_year" "not an integer")
  | ("sol", .int s) =>
    if decide (0 ≤ s) then .ok { q with sol := some s }
    else .error (.badValue "sol" "negative")
  | ("sol", .str _) => .error (.badValue "sol" "not an integer")
  | ("rover", .str r) => .ok { q with rover := some r }
  | ("rover", .int _) => .error (.badValue "rover" "not a string")
  | (f, _) => .error (.unknownField f)

/-- Modelled from the spec: fold the supplied fields into an
accumulating normalized query. -/
def normalizeFrom (currentYear : Int) :
    List (String × RawVal) → NormalizedQuery → Except InvalidQuery NormalizedQuery
  | [], q => .ok q
  | kv :: rest, q =>
    match normalizeField currentYear q kv with
    | .ok q2 => normalizeFrom currentYear rest q2
    | .error e => .error e

/-- Modelled from the spec: `normalize(rawParams)` validates every
supplied field and produces the canonical query (spec section 4.1). -/
def normalizeQuery (currentYear : Int) (raw : List (String × RawVal)) :
    Except InvalidQuery NormalizedQuery :=
  normalizeFrom currentYear raw {}

/-- The canonical raw form of a normalized query: fields in the stable
alphabetical order discovery_year, rover, sol, absent fields omitted. -/
def NormalizedQuery.toRaw (q : NormalizedQuery) : List (String × RawVal) :=
  (match q.discovery_year with
   | some y => [("discovery_year", RawVal.int y)]
   | none => []) ++
  (match q.rover with
   | some r => [("rover", RawVal.str r)]
   | none => []) ++
  (match q.sol with
   | some s => [("sol", RawVal.int s)]
   | none => [])

/-- The range and type invariants every normalizer output satisfies. -/
def ValidNQ (currentYear : Int) (q : NormalizedQuery) : Prop :=
  (∀ y, q.discovery_year = some y → validYear currentYear y = true) ∧
  (∀ s, q.sol = some s → 0 ≤ s)

/-! ## Theorems -/

/-- Claim C1, counterexample: there is no single envelope field from
which every tab reads its records, and on a response body shaped like
the specified envelope neither the exoplanets tab nor the Mars tab
reads the records field. -/
theorem tabsEnvelope_cex :
    (¬ ∃ f : String, ∀ b : Js,
      exoplanetsRecords b = jsGet b f ∧ marsRecords b = jsGet b f) ∧
    exoplanetsRecords specEnvelope ≠ jsGet specEnvelope "records" ∧
    marsRecords specEnvelope ≠ jsGet specEnvelope "records" := by
  refine ⟨?_, ?_, ?_⟩
  · rintro ⟨f, h⟩
    have h1 := h (Js.obj [("data", Js.arr [Js.num 1]), ("photos", Js.arr [Js.num 2])])
    simp only [exoplanetsRecords, marsRecords, jsGet, findField, jsOr, jsTruthy,
      if_pos, if_neg, String.reduceEq, reduceIte] at h1
    have h2 := h1.1.trans h1.2.symm
    simp at h2
  · simp [exoplanetsRecords, specEnvelope, jsGet, findField]
  · simp [marsRecords, specEnvelope, jsGet, findField, jsOr, jsTruthy]

/-- Claim C1, amended: there is no common envelope; each tab reads its
records from its own tab-specific location — the exoplanets tab from the
`data` field, the Mars tab from the `photos` field (falling back to the
empty array when that field is falsy), and the ISS tab uses the whole
body. -/
theorem tabsFieldAccess (xs ys : List Js) (b : Js)
    (hb : jsTruthy (jsGet b "photos") = false) :
    exoplanetsRecords (Js.obj [("data", Js.arr xs), ("photos", Js.arr ys)]) = Js.arr xs ∧
    marsRecords (Js.obj [("data", Js.arr xs), ("photos", Js.arr ys)]) = Js.arr ys ∧
    marsRecords b = Js.arr [] ∧
    issRecords b = b := by
  refine ⟨?_, ?_, ?_, rfl⟩
  · simp [exoplanetsRecords, jsGet, findField]
  · simp [marsRecords, jsGet, findField, jsOr, jsTruthy]
  · simp [marsRecords, jsOr, hb]

/-- Claim C1, witness for the amended theorem at a concrete body. -/
theorem tabsFieldAccess_witness :
    jsTruthy (jsGet Js.null "photos") = false ∧
    exoplanetsRecords (Js.obj [("data", Js.arr [Js.num 1]), ("photos", Js.arr [Js.num 2])]) =
      Js.arr [Js.num 1] ∧
    marsRecords Js.null = Js.arr [] := by
  have h := tabsFieldAccess [Js.num 1] [Js.num 2] Js.null rfl
  exact ⟨rfl, h.1, h.2.2.1⟩

/-- Claim C2, counterexample: two distinct failure kinds (a 404
no-data-style rejection and a 429 rate-limit rejection) produce exactly
the same user-visible result in every tab; nothing in the consumed
result carries a per-provider status map. -/
theorem errorCollapse_cex :
    marsErrorMessage (.failure 404) = marsErrorMessage (.failure 429) ∧
    exoplanetsErrorMessage (.failure 400) = exoplanetsErrorMessage (.failure 503) ∧
    issErrorMessage (.failure 404) = issErrorMessage (.failure 429) ∧
    (404 : Nat) ≠ 429 := by
  refine ⟨rfl, rfl, rfl, by decide⟩

/-- Claim C2, amended: every failed fetch collapses to one fixed
tab-specific error string, independent of the failure kind, so the
caller cannot distinguish failure kinds from the user-visible result. -/
theorem errorCollapse (s1 s2 : Nat) :
    marsErrorMessage (.failure s1) = marsErrorMessage (.failure s2) ∧
    marsErrorMessage (.failure s1) = some "Failed to fetch Mars photos" ∧
    exoplanetsErrorMessage (.failure s1) = some "Failed to fetch exoplanets data" ∧
    issErrorMessage (.failure s1) = some "Failed to fetch ISS position" := by
  exact ⟨rfl, rfl, rfl, rfl⟩

/-- Claim C5, counterexample: a record whose disc_year is 0 lands in the
same bucket as a record with no disc_year at all — both become
"Unknown", so zero is not distinguishable from absent. -/
theorem discYearZero_cex :
    discYearBucket (Js.obj [("disc_year", Js.num 0)]) = Js.str "Unknown" ∧
    discYearBucket (Js.obj []) = Js.str "Unknown" ∧
    discYearBucket (Js.obj [("disc_year", Js.num 2020)]) = Js.num 2020 := by
  refine ⟨rfl, rfl, ?_⟩
  simp [discYearBucket, jsGet, findField, jsOr, jsTruthy]

/-- Claim C5, amended: the `|| 'Unknown'` coercion maps every falsy
disc_year value — including the number 0, the empty string and a missing
field — to the "Unknown" bucket, and keeps truthy values unchanged. -/
theorem discYearFalsyCoerced (planet : Js) :
    (jsTruthy (jsGet planet "disc_year") = false →
      discYearBucket planet = Js.str "Unknown") ∧
    (jsTruthy (jsGet planet "disc_year") = true →
      discYearBucket planet = jsGet planet "disc_year") := by
  constructor
  · intro h
    simp [discYearBucket, jsOr, h]
  · intro h
    simp [discYearBucket, jsOr, h]

/-- Claim C5, witness for the amended theorem. -/
theorem discYearFalsyCoerced_witness :
    jsTruthy (jsGet (Js.obj [("disc_year", Js.num 0)]) "disc_year") = false ∧
    discYearBucket (Js.obj [("disc_year", Js.num 0)]) = Js.str "Unknown" := by
  refine ⟨by simp [jsGet, findField, jsTruthy], ?_⟩
  exact (discYearFalsyCoerced (Js.obj [("disc_year", Js.num 0)])).1
    (by simp [jsGet, findField, jsTruthy])

/-- Claim C6: the millisecond value handed to the Date constructor is
exactly 1000 times the received timestamp — the seconds-to-milliseconds
conversion loses nothing. -/
theorem issTimestampConversion (p : IssPosition) :
    issDisplayedDateMillis p = 1000 * p.timestamp ∧
    issDisplayedDateMillis p / 1000 = p.timestamp ∧
    issDisplayedDateMillis p % 1000 = 0 := by
  simp only [issDisplayedDateMillis]
  omega

/-- Claim C3: when a Mars photo fetch succeeds with zero photos, the
resulting render state shows the no-photos message and neither the
error nor the gallery branch — an empty result is a success, not an
error. -/
theorem marsEmptySuccess (body : Js)
    (h : jsGet body "photos" = Js.arr [] ∨ jsTruthy (jsGet body "photos") = false) :
    marsView (marsFetchSuccess body) =
      { showLoading := false, showError := false,
        showGallery := false, showNoPhotos := true } := by
  have hp : marsRecords body = Js.arr [] := by
    rcases h with h | h
    · simp [marsRecords, h, jsOr, jsTruthy]
    · simp [marsRecords, jsOr, h]
  simp [marsView, marsFetchSuccess, hp, errTruthy, jsLen]

/-- Claim C3, witness: a successful response carrying an empty photos
array yields the no-photos view. -/
theorem marsEmptySuccess_witness :
    marsView (marsFetchSuccess (Js.obj [("photos", Js.arr [])])) =
      { showLoading := false, showError := false,
        showGallery := false, showNoPhotos := true } :=
  marsEmptySuccess (Js.obj [("photos", Js.arr [])])
    (Or.inl (by simp [jsGet, findField]))

/-- Claim C4, counterexample: a discovery year far outside the required
range [1989, current_year + 1] is neither rejected nor withheld — the
raw value is interpolated into the URL and the request is dispatched;
likewise a negative sol for the Mars endpoint. -/
theorem clientValidation_cex :
    fetchExoplanetsRequest "1700" =
      some "/api/exoplanets/search?discovery_year=1700" ∧
    validYear 2026 1700 = false ∧
    fetchMarsRequest "curiosity" "-5" =
      some "/api/mars/rover/curiosity/photos?sol=-5" := by
  refine ⟨rfl, by decide, rfl⟩

/-- Claim C4, amended: the client performs no validation at all; for
every year string a request is dispatched (with the value appended
verbatim when non-empty), and for every rover and sol string a Mars
request is dispatched with the values interpolated verbatim. -/
theorem clientNoValidation (year rover sol : String) :
    fetchExoplanetsRequest year ≠ none ∧
    fetchMarsRequest rover sol ≠ none ∧
    (year ≠ "" →
      fetchExoplanetsRequest year =
        some ("/api/exoplanets/search?" ++ "discovery_year=" ++ year)) ∧
    fetchMarsRequest rover sol =
      some ("/api/mars/rover/" ++ rover ++ "/photos?sol=" ++ sol) := by
  refine ⟨by simp [fetchExoplanetsRequest], by simp [fetchMarsRequest], ?_, rfl⟩
  intro hy
  simp [fetchExoplanetsRequest, exoplanetsRequestUrl, hy]

/-- Claim C4, witness for the amended theorem at concrete inputs. -/
theorem clientNoValidation_witness :
    fetchExoplanetsRequest "1700" ≠ none ∧
    fetchExoplanetsRequest "1700" =
      some ("/api/exoplanets/search?" ++ "discovery_year=" ++ "1700") := by
  have h := clientNoValidation "1700" "curiosity" "-5"
  exact ⟨h.1, h.2.2.1 (by decide)⟩

/-- Claim C10: the Mars gallery renders exactly the cells of the first
ten photos in received order — `slice(0, 10)` coincides with taking the
10-element prefix, so at most ten photos are ever rendered. -/
theorem marsGallery_take10 (photos : List MarsPhoto) :
    marsGallery photos = (photos.take 10).map marsPhotoCell ∧
    (marsGallery photos).length = min photos.length 10 ∧
    (marsGallery photos).length ≤ 10 := by
  have hslice : jsSlice 0 10 photos = photos.take 10 := by
    simp only [jsSlice]
    norm_num
    omega
  refine ⟨?_, ?_, ?_⟩
  · simp [marsGallery, hslice]
  · simp [marsGallery, hslice, List.length_take, Nat.min_comm]
  · simp [marsGallery, hslice, List.length_take]

/-- Claim C7: while the ISS tab is mounted (unmounting at `endTime`),
the effect fetches exactly at time 0 (once immediately on mount) and at
every positive multiple of 5000 ms before `endTime`; no fetch happens at
or after unmount because the cleanup clears the interval. -/
theorem issPolling (endTime t : Nat) (h : 0 < endTime) :
    t ∈ issFetchTimes endTime ↔ t % 5000 = 0 ∧ t < endTime := by
  unfold issFetchTimes effectFetchTimes
  constructor
  · intro hm
    rcases List.mem_cons.mp hm with h0 | hf
    · subst h0
      exact ⟨Nat.zero_mod 5000, h⟩
    · rcases List.mem_filter.mp hf with ⟨hmap, hlt⟩
      rcases List.mem_map.mp hmap with ⟨k, hk, rfl⟩
      refine ⟨Nat.mul_mod_left _ _, by simpa using hlt⟩
  · rintro ⟨hmod, hlt⟩
    rcases Nat.dvd_of_mod_eq_zero hmod with ⟨m, rfl⟩
    cases m with
    | zero => simp
    | succ m =>
      refine List.mem_cons.mpr (Or.inr (List.mem_filter.mpr ⟨?_, by simpa using hlt⟩))
      refine List.mem_map.mpr ⟨m, ?_, by ring⟩
      refine List.mem_range.mpr ?_
      have hle : (m + 1) * 5000 ≤ endTime := by omega
      have := (Nat.le_div_iff_mul_le (by norm_num : 0 < 5000)).mpr hle
      omega

/-- Claim C7, witness: with unmount at 12000 ms, time 10000 is a fetch
time (it is a multiple of 5000 before unmount). -/
theorem issPolling_witness :
    0 < 12000 ∧ (10000 ∈ issFetchTimes 12000 ↔ 10000 % 5000 = 0 ∧ 10000 < 12000) :=
  ⟨by decide, issPolling 12000 10000 (by decide)⟩

/-- Claim C8 (modelled from the spec; the result cache is absent from
the sources): two concurrent requests for the identical (provider,
query) key — both arriving before the fetch completes, with an empty
cache — issue exactly one upstream fetch, and on completion both
waiters receive the same shared payload. -/
theorem singleFlight (ttl t1 t2 t3 : Nat) (k : SFKey) (v : Nat) :
    singleFlightRun ttl t1 t2 t3 k v = (1, [(2, v), (1, v)]) := by
  simp [singleFlightRun, sfRequest, sfComplete, cacheFresh, hasInflight,
    addWaiter, takeWaiters, List.any]

/-- One validated field keeps the accumulated query within the
vocabulary range invariants. -/
theorem normalizeField_valid {currentYear : Int} {q q2 : NormalizedQuery}
    {kv : String × RawVal} (h : normalizeField currentYear q kv = .ok q2)
    (hv : ValidNQ currentYear q) : ValidNQ currentYear q2 := by
  unfold normalizeField at h
  split at h
  · split at h
    · rename_i y hy
      cases h
      constructor
      · intro y2 hy2
        simp at hy2
        subst hy2
        assumption
      · intro s hs
        exact hv.2 s hs
    · cases h
  · cases h
  · split at h
    · rename_i s hs
      cases h
      constructor
      · intro y hy
        exact hv.1 y hy
      · intro s2 hs2
        simp at hs2
        subst hs2
        simpa using hs
    · cases h
  · cases h
  · cases h
    exact ⟨fun y hy => hv.1 y hy, fun s hs => hv.2 s hs⟩
  · cases h
  · cases h

/-- A successful normalization run preserves the range invariants. -/
theorem normalizeFrom_valid {currentYear : Int} {raw : List (String × RawVal)}
    {q q2 : NormalizedQuery} (h : normalizeFrom currentYear raw q = .ok q2)
    (hv : ValidNQ currentYear q) : ValidNQ currentYear q2 := by
  induction raw generalizing q with
  | nil =>
    simp [normalizeFrom] at h
    subst h
    exact hv
  | cons kv rest ih =>
    unfold normalizeFrom at h
    split at h
    · rename_i q3 hq3
      exact ih h (normalizeField_valid hq3 hv)
    · cases h

/-- Renormalizing the canonical raw form of an in-range query gives the
query back. -/
theorem toRaw_normalizes {currentYear : Int} {q : NormalizedQuery}
    (hv : ValidNQ currentYear q) :
    normalizeQuery currentYear q.toRaw = .ok q := by
  obtain ⟨dy, sv, rv⟩ := q
  have hdy := hv.1
  have hsv := hv.2
  simp only at hdy hsv
  cases dy with
  | none =>
    cases sv with
    | none =>
      cases rv with
      | none => rfl
      | some r => rfl
    | some s =>
      have hs : decide (0 ≤ s) = true := by simpa using hsv s rfl
      cases rv with
      | some r =>
        simp [normalizeQuery, NormalizedQuery.toRaw, normalizeFrom, normalizeField, hs]
      | none =>
        simp [normalizeQuery, NormalizedQuery.toRaw, normalizeFrom, normalizeField, hs]
  | some y =>
    have hy : validYear currentYear y = true := hdy y rfl
    cases sv with
    | none =>
      cases rv with
      | some r =>
        simp [normalizeQuery, NormalizedQuery.toRaw, normalizeFrom, normalizeField, hy]
      | none =>
        simp [normalizeQuery, NormalizedQuery.toRaw, normalizeFrom, normalizeField, hy]
    | some s =>
      have hs : decide (0 ≤ s) = true := by simpa using hsv s rfl
      cases rv with
      | some r =>
        simp [normalizeQuery, NormalizedQuery.toRaw, normalizeFrom, normalizeField, hy, hs]
      | none =>
        simp [normalizeQuery, NormalizedQuery.toRaw, normalizeFrom, normalizeField, hy, hs]

/-- Claim C9 (modelled from the spec; the query normalizer is absent
from the sources): normalize is idempotent — any query it outputs,
viewed in its canonical raw form, normalizes again to itself
unchanged. -/
theorem normalizeIdempotent (currentYear : Int) (raw : List (String × RawVal))
    (q : NormalizedQuery) (h : normalizeQuery currentYear raw = .ok q) :
    normalizeQuery currentYear q.toRaw = .ok q := by
  have hv : ValidNQ currentYear q :=
    normalizeFrom_valid h ⟨fun y hy => by simp at hy, fun s hs => by simp at hs⟩
  exact toRaw_normalizes hv

/-- Claim C9, witness: a concrete query normalizes, and its normal form
renormalizes to itself. -/
theorem normalizeIdempotent_witness :
    normalizeQuery 2026 [("discovery_year", RawVal.int 2023), ("sol", RawVal.int 1000)] =
      .ok { discovery_year := some 2023, sol := some 1000, rover := none } ∧
    normalizeQuery 2026
      (NormalizedQuery.toRaw
        { discovery_year := some 2023, sol := some 1000, rover := none }) =
      .ok { discovery_year := some 2023, sol := some 1000, rover := none } :=
  ⟨by rfl,
   normalizeIdempotent 2026 [("discovery_year", RawVal.int 2023), ("sol", RawVal.int 1000)]
     { discovery_year := some 2023, sol := some 1000, rover := none } (by rfl)⟩
